import Mathlib

/-!
Verification model of the respite authorization-and-scoping pipeline.

Shallow embedding of the Go sources:
  - permission matching        (api havePermission, repo/common haveGlobalPermission)
  - pagination parameters      (repo/dbscopes.go getPageSize / getPage / getOffset)
  - ownership scoping          (repo/dbscopes.go DBScopes.Owned / Paginate,
                                common/constants.go DBScopes.Owned)
  - repository construction    (repo/base.go NewRepository)
  - generic CRUD operations    (repo/base.go GetAll / Get / Create / Update)
  - the authorization gate     (api Server.Protected, ERROR/JSON helpers)

UUIDs are modelled as `Nat`, database tables as `List` of rows, and the
gorm handle as the row-list a query would run against.  Persistence
primitives of the `basemodel`/`domain` package (FindByID, Save, Update,
Count, FindAll) are not part of the sources; where they matter they are
modelled from the spec and marked as such.
-/

namespace Respite

/-! ## Character-level string operations

Executable models of the Go string primitives the sources use, written over
the character list of a `String` so that every definition reduces on concrete
inputs.  They are faithful for the ASCII data (permission strings, header
schemes, numeric query parameters) this system manipulates. -/

/-- ASCII lower-casing of one character (model of the `strings.ToLower` /
`strings.EqualFold` folding on the ASCII range). -/
def charToLower (c : Char) : Char :=
  if 65 ≤ c.toNat ∧ c.toNat ≤ 90 then Char.ofNat (c.toNat + 32) else c

/-- Model of Go `strings.ToLower`. -/
def strToLower (s : String) : String := ⟨s.data.map charToLower⟩

/-- Model of the Go slice `s[:n]` (byte slicing, ASCII). -/
def strTake (s : String) (n : Nat) : String := ⟨s.data.take n⟩

/-- Model of the Go slice `s[n:]` (byte slicing, ASCII). -/
def strDrop (s : String) (n : Nat) : String := ⟨s.data.drop n⟩

/-- Model of Go `len(s)` (byte length, ASCII). -/
def strLength (s : String) : Nat := s.data.length

/-- White space as trimmed by Go `strings.TrimSpace` (ASCII subset). -/
def isSpaceChar (c : Char) : Bool :=
  c == ' ' || c == '\t' || c == '\n' || c == '\r'

/-- Model of Go `strings.TrimSpace`. -/
def strTrim (s : String) : String :=
  ⟨((s.data.dropWhile isSpaceChar).reverse.dropWhile isSpaceChar).reverse⟩

/-! ## Permission evaluation -/

/-- Model of Go `strings.EqualFold`: case-insensitive string equality.
(Faithful for the ASCII permission strings this system uses.) -/
def eqFold (a b : String) : Bool := strToLower a == strToLower b

/-- api `havePermission` (middleware file): checks whether the permission for
the resource is present in the list of permissions, comparing each entry
case-insensitively against `"<resource>.<permission>"`. -/
def havePermission (resource permission : String) (permissions : List String) : Bool :=
  permissions.any (fun currentPermission =>
    eqFold currentPermission (resource ++ "." ++ permission))

/-- repo/dbscopes.go constant `GLOBAL`. -/
def GLOBAL : String := "global"

/-- repo/dbscopes.go `haveGlobalPermission`: checks whether the global
permission for the resource is present in the list of permissions. -/
def haveGlobalPermission (resource : String) (permissions : List String) : Bool :=
  permissions.any (fun currentPermission =>
    eqFold currentPermission (resource ++ "." ++ GLOBAL))

/-! ## Pagination parameters -/

/-- Digit-sequence parser underlying the `strconv.Atoi` model: all characters
must be decimal digits or the parse fails. -/
def parseNatAux : List Char → Nat → Option Nat
  | [], acc => some acc
  | c :: cs, acc =>
    if c.isDigit then parseNatAux cs (acc * 10 + (c.toNat - 48)) else none

/-- A non-empty all-digit sequence, or failure. -/
def parseNat : List Char → Option Nat
  | [] => none
  | c :: cs => parseNatAux (c :: cs) 0

/-- Model of Go `strconv.Atoi` with the error ignored: optional sign followed
by digits; wrong or missing parameters are handled as `0` (comment in
repo/dbscopes.go). -/
def goAtoi (s : String) : Int :=
  match s.data with
  | '-' :: cs => match parseNat cs with | some n => -(n : Int) | none => 0
  | '+' :: cs => match parseNat cs with | some n => (n : Int) | none => 0
  | cs => match parseNat cs with | some n => (n : Int) | none => 0

/-- repo/dbscopes.go `getPageSize`, applied to the raw `page_size` query
parameter ("" when missing) and the configured bounds. -/
def getPageSize (raw : String) (minPageSize maxPageSize : Int) : Int :=
  if goAtoi raw > maxPageSize then maxPageSize
  else if goAtoi raw ≤ 0 then minPageSize
  else goAtoi raw

/-- repo/dbscopes.go `getPage`, applied to the raw `page` query parameter. -/
def getPage (raw : String) : Int :=
  if goAtoi raw ≤ 0 then 1 else goAtoi raw

/-- repo/dbscopes.go `getOffset`: `(page - 1) * pageSize` over the effective
values. -/
def getOffset (pageRaw sizeRaw : String) (minPageSize maxPageSize : Int) : Int :=
  (getPage pageRaw - 1) * getPageSize sizeRaw minPageSize maxPageSize

/-! ## Rows and database scopes -/

/-- A persisted row of an arbitrary registered domain type.  `userId` is the
owner column (`none` models SQL NULL); `validateOk` models the outcome of the
object's own `Validate`; `payload` stands for the remaining columns. -/
structure Row where
  id : Nat
  userId : Option Nat
  payload : Nat
  validateOk : Bool
deriving DecidableEq, Repr

/-- SQL equality `a = b` over a nullable column and a nullable bind value:
NULL on either side compares as not-equal (three-valued logic collapses to
"row not matched"). -/
def sqlEq : Option Nat → Option Nat → Bool
  | some a, some b => a == b
  | _, _ => false

/-- gorm `Offset`: a negative offset clears the clause. -/
def goOffset (offset : Int) (q : List Row) : List Row :=
  if offset < 0 then q else q.drop offset.toNat

/-- gorm `Limit`: a negative limit clears the clause. -/
def goLimit (limit : Int) (q : List Row) : List Row :=
  if limit < 0 then q else q.take limit.toNat

/-- repo/dbscopes.go `DBScopes`: the per-request scope value. -/
structure DBScopes where
  pageSize : Int
  page : Int
  offset : Int
  userID : Option Nat
  global : Bool
deriving Repr

/-- repo/dbscopes.go `DBScopes.Paginate`: `db.Offset(dbs.Offset).Limit(dbs.PageSize)`. -/
def DBScopes.Paginate (dbs : DBScopes) (q : List Row) : List Row :=
  goLimit dbs.pageSize (goOffset dbs.offset q)

/-- repo/dbscopes.go `DBScopes.Owned`: the query unchanged for a global
resource, otherwise `db.Where("user_id = ?", dbs.UserID)` — with a nil
`UserID` the bind value is SQL NULL and the predicate matches no row. -/
def DBScopes.Owned (dbs : DBScopes) (q : List Row) : List Row :=
  if dbs.global then q
  else q.filter (fun r => sqlEq r.userId dbs.userID)

/-! ## Resource registry -/

/-- repo/resources.go `Resource` (the reflective type handle is dropped; the
registry in this model manufactures `Row` values). -/
structure Resource where
  name : String
  isGlobal : Bool
deriving DecidableEq, Repr

/-- repo/resources.go `Resources`: name-keyed registry of resources. -/
structure Resources where
  resources : List (String × Resource)
deriving Repr

/-- repo/resources.go `Resources.IsGlobal`: the registered flag, `false` for
an unknown name. -/
def Resources.IsGlobal (rs : Resources) (name : String) : Bool :=
  match rs.resources.lookup name with
  | some resource => resource.isGlobal
  | none => false

/-- The blank instance `reflect.New` manufactures (Go zero values). -/
def blankRow : Row := { id := 0, userId := none, payload := 0, validateOk := true }

/-- Error outcomes of the repository layer. -/
inductive RepoErr where
  | unknownResource (name : String)
  | malformedBody
  | validationFailed
  | notFound
deriving DecidableEq, Repr

/-- repo/resources.go `Resources.New`: a blank instance of the registered
type, or "unrecognized resource name" for an unknown name. -/
def Resources.New (rs : Resources) (name : String) : Except RepoErr Row :=
  match rs.resources.lookup name with
  | some _ => .ok blankRow
  | none => .error (.unknownResource name)

/-! ## Repository construction and CRUD -/

/-- repo/base.go `Repository`.  The gorm handle is represented by the scope
decision it carries: `ownedApplied` records whether the `Owned` scope was
attached to the request database. -/
structure Repository where
  dbScopes : DBScopes
  ownedApplied : Bool
deriving Repr

/-- repo/base.go `NewRepository`: computes the resource's global flag, builds
the `DBScopes`, and attaches the `Owned` scope exactly when the resource is
not global and the caller lacks the global permission for it. -/
def NewRepository (pageSize pageNumber offset : Int) (userID : Option Nat)
    (resourceName : String) (resources : Resources)
    (currentUserPermissions : List String) : Repository :=
  let isGlobal := resources.IsGlobal resourceName
  let dbScopes : DBScopes :=
    { pageSize := pageSize, page := pageNumber, offset := offset,
      userID := userID, global := isGlobal }
  { dbScopes := dbScopes,
    ownedApplied := !isGlobal && !haveGlobalPermission resourceName currentUserPermissions }

/-- The row set of the repository's request database before pagination:
the table with the `Owned` scope applied when it was attached. -/
def Repository.scopedTable (repository : Repository) (table : List Row) : List Row :=
  if repository.ownedApplied then repository.dbScopes.Owned table else table

/-- The row set of the repository's request database with pagination applied
(the window a `FindAll` runs over). -/
def Repository.pagedTable (repository : Repository) (table : List Row) : List Row :=
  repository.dbScopes.Paginate (repository.scopedTable table)

/-- Modelled from the spec: `basemodel` `FindByID` (not under src/) — find by
primary key under the handle's predicate; not-found surfaces as `NotFound`. -/
def findByID (q : List Row) (uid : Nat) : Except RepoErr Row :=
  match q.find? (fun r => r.id == uid) with
  | some r => .ok r
  | none => .error .notFound

/-- basemodel `List`: the list-operation result envelope. -/
structure GoList where
  count : Nat
  page : Int
  pageSize : Int
  data : List Row
deriving DecidableEq, Repr

/-- repo/base.go `Repository.GetAll`: blank instance, count and page window
under the repository's scopes, result envelope.  `Count` and `FindAll`
(basemodel, not under src/) are modelled from the spec: count under the
ownership predicate, rows under the same predicate and pagination bounds. -/
def Repository.GetAll (repository : Repository) (resources : Resources)
    (resourceName : String) (table : List Row) : Except RepoErr GoList :=
  match resources.New resourceName with
  | .error e => .error e
  | .ok _object =>
    let count := (repository.scopedTable table).length
    let data := repository.pagedTable table
    .ok { count := count, page := repository.dbScopes.page,
          pageSize := repository.dbScopes.pageSize, data := data }

/-- repo/base.go `Repository.Get`: blank instance, then `FindByID` under the
repository's ownership scope. -/
def Repository.Get (repository : Repository) (resources : Resources)
    (resourceName : String) (uid : Nat) (table : List Row) : Except RepoErr Row :=
  match resources.New resourceName with
  | .error e => .error e
  | .ok _object => findByID (repository.scopedTable table) uid

/-- repo/base.go `Repository.Create`.  The Go function returns an
`(object, error)` pair of nilable values, modelled as the pair of options;
the second component of the result is the table after the call.  `Save`
(basemodel, not under src/) is modelled from the spec as an insert.
On a non-global resource with a nil scope `UserID` the source executes
`return nil, err` where `err` is necessarily nil at that point, so the
call returns neither an object nor an error. -/
def Repository.Create (repository : Repository) (resources : Resources)
    (resourceName : String) (jsonObject : Option Row) (table : List Row) :
    (Option Row × Option RepoErr) × List Row :=
  match resources.New resourceName with
  | .error e => ((none, some e), table)
  | .ok _blank =>
    match jsonObject with
    | none => ((none, some .malformedBody), table)
    | some object =>
      if !object.validateOk then ((none, some .validationFailed), table)
      else if !repository.dbScopes.global then
        match repository.dbScopes.userID with
        | none => ((none, none), table)
        | some ownerUUID =>
          let stamped := { object with userId := some ownerUUID }
          ((some stamped, none), table ++ [stamped])
      else
        ((some object, none), table ++ [object])

/-- repo/base.go `Repository.Update`: decode into a fresh blank object,
validate, load the existing record by id (NotFound aborts with nothing
persisted), set the path id on the decoded object, persist.  `Update`
(basemodel, not under src/) is modelled from the spec as a full-row
replacement of the row with that primary key. -/
def Repository.Update (repository : Repository) (resources : Resources)
    (resourceName : String) (uid : Nat) (jsonObject : Option Row)
    (table : List Row) : (Option Row × Option RepoErr) × List Row :=
  match resources.New resourceName with
  | .error e => ((none, some e), table)
  | .ok _blank =>
    match jsonObject with
    | none => ((none, some .malformedBody), table)
    | some object =>
      if !object.validateOk then ((none, some .validationFailed), table)
      else
        match findByID (repository.scopedTable table) uid with
        | .error _ => ((none, some .notFound), table)
        | .ok _recordExisting =>
          let updated := { object with id := uid }
          ((some updated, none),
           table.map (fun r => if r.id == uid then updated else r))

/-! ## The common-package variant of the ownership scope -/

/-- model/user.go / domain `User`, reduced to its identity. -/
structure GoUser where
  id : Nat
deriving DecidableEq, Repr

/-- common/constants.go `DBScopes`: carries the caller as a nilable
`*domain.User` instead of a nilable UUID. -/
structure CommonDBScopes where
  pageSize : Int
  page : Int
  offset : Int
  user : Option GoUser
  global : Bool
deriving Repr

/-- common/constants.go `DBScopes.Owned`: for a non-global resource the
source executes `db.Where("user_id = ?", dbs.User.ID.String())`, reading the
field through the pointer unconditionally.  A `none` result models the nil
pointer dereference that a request with no resolved caller triggers. -/
def CommonDBScopes.Owned (dbs : CommonDBScopes) (q : List Row) : Option (List Row) :=
  if dbs.global then some q
  else
    match dbs.user with
    | none => none
    | some user => some (q.filter (fun r => sqlEq r.userId (some user.id)))

/-! ## The authorization gate (Server.Protected) -/

/-- auth `Client`: the external identity provider, per-token outcomes.
Errors carry the provider's message string. -/
structure AuthClient where
  retrospectToken : String → Except String Unit
  getUserFromToken : String → Except String GoUser
  getRolesFromToken : String → Except String (List String)

/-- api `DBLoadUser`: look up the local user record by subject id. -/
def dbLoadUser (table : List GoUser) (uid : Nat) : Option GoUser :=
  table.find? (fun u => u.id == uid)

/-- Terminal outcomes of the gate. -/
inductive Outcome where
  | rejected (status : Nat) (body : String)
  | admitted
deriving DecidableEq, Repr

/-- Observable effects of one `Protected` invocation: the HTTP outcome, the
user table after the call, whether the request-scoped repository
(`RequestContext`) was constructed, and whether the downstream handler ran. -/
structure GateResult where
  outcome : Outcome
  userTable : List GoUser
  repoConstructed : Bool
  handlerInvoked : Bool
deriving DecidableEq, Repr

/-- api `ERROR`/`JSON`: the error response body `{"error":"<message>"}`. -/
def errorBody (msg : String) : String :=
  "\x7b\"error\":\"" ++ msg ++ "\"\x7d"

/-- The tail of api `Server.Protected` after the first-use upsert: re-read
the canonical local user, resolve roles, expand permissions through the
static role table, construct the request context, and decide the permission.
`userTable` is the table as left by the upsert; this tail never changes it. -/
def protectedTail (permission : String) (resource : Resource)
    (roleToPermissions : String → List String) (authClient : AuthClient)
    (tokenString : String) (subjectID : Nat) (userTable : List GoUser) : GateResult :=
  match dbLoadUser userTable subjectID with
  | none =>
    { outcome := .rejected 401 (errorBody "record not found"),
      userTable := userTable, repoConstructed := false, handlerInvoked := false }
  | some _loadedUser =>
    match authClient.getRolesFromToken tokenString with
    | .error e =>
      { outcome := .rejected 401 (errorBody e),
        userTable := userTable, repoConstructed := false, handlerInvoked := false }
    | .ok roles =>
      -- permissions := the roles expanded through the static role table;
      -- requestContext := common.NewRequestContext(...) happens here,
      -- before the permission check.
      if havePermission resource.name permission
          (roles.foldl (fun acc role => acc ++ roleToPermissions role) []) then
        { outcome := .admitted, userTable := userTable,
          repoConstructed := true, handlerInvoked := true }
      else
        { outcome := .rejected 401
            (errorBody ("unauthorized, no permission for "
              ++ resource.name ++ "." ++ permission)),
          userTable := userTable, repoConstructed := true, handlerInvoked := false }

/-- api `Server.Protected`: parse the bearer credential, validate it with the
provider, resolve the caller, upsert the local user record on first sight,
then continue with `protectedTail`.  `saveUserResult` is the outcome
`DBSaveUser` would report; each provider call is a field of `authClient`. -/
def Protected (permission : String) (resource : Resource)
    (roleToPermissions : String → List String) (authClient : AuthClient)
    (saveUserResult : Except String Unit) (userTable : List GoUser)
    (authHeader : String) : GateResult :=
  if strLength authHeader < 7 then
    { outcome := .rejected 401 (errorBody "unauthorized, missing bearer authorization header"),
      userTable := userTable, repoConstructed := false, handlerInvoked := false }
  else if strToLower (strTake authHeader 6) != "bearer" then
    { outcome := .rejected 401 (errorBody "unauthorized, invalid bearer authorization header"),
      userTable := userTable, repoConstructed := false, handlerInvoked := false }
  else
    -- tokenString := strings.TrimSpace(authHeader[7:])
    match authClient.retrospectToken (strTrim (strDrop authHeader 7)) with
    | .error e =>
      { outcome := .rejected 401 (errorBody e),
        userTable := userTable, repoConstructed := false, handlerInvoked := false }
    | .ok _ =>
      match authClient.getUserFromToken (strTrim (strDrop authHeader 7)) with
      | .error e =>
        { outcome := .rejected 401 (errorBody e),
          userTable := userTable, repoConstructed := false, handlerInvoked := false }
      | .ok userFromInfo =>
        match dbLoadUser userTable userFromInfo.id with
        | some _ =>
          protectedTail permission resource roleToPermissions authClient
            (strTrim (strDrop authHeader 7)) userFromInfo.id userTable
        | none =>
          match saveUserResult with
          | .error e =>
            { outcome := .rejected 401 (errorBody e),
              userTable := userTable, repoConstructed := false, handlerInvoked := false }
          | .ok _ =>
            protectedTail permission resource roleToPermissions authClient
              (strTrim (strDrop authHeader 7)) userFromInfo.id (userTable ++ [userFromInfo])

/-! ## Concrete demonstration data -/

/-- A registry with one owned resource `book` and one global resource `tag`. -/
def demoResources : Resources :=
  { resources := [("book", { name := "book", isGlobal := false }),
                  ("tag", { name := "tag", isGlobal := true })] }

/-- Two persisted `book` rows, owned by users 7 and 8. -/
def demoTable : List Row :=
  [{ id := 1, userId := some 7, payload := 11, validateOk := true },
   { id := 2, userId := some 8, payload := 22, validateOk := true }]

/-- A provider for which every call succeeds: the token is active, the caller
is subject 42, holding the single role `Customer`. -/
def demoClient : AuthClient :=
  { retrospectToken := fun _ => .ok (),
    getUserFromToken := fun _ => .ok { id := 42 },
    getRolesFromToken := fun _ => .ok ["Customer"] }

/-- A role table granting `Customer` only read permission on `order`. -/
def demoRoleTable : String → List String :=
  fun role => if role == "Customer" then ["order.read"] else []

/-- A provider whose token introspection fails with a detailed root-cause
message. -/
def failingClient : AuthClient :=
  { retrospectToken := fun _ => .error "introspection call failed: connection refused",
    getUserFromToken := fun _ => .ok { id := 42 },
    getRolesFromToken := fun _ => .ok [] }

/-! ## Helper lemmas -/

theorem sqlEq_some_iff (o : Option Nat) (u : Nat) : sqlEq o (some u) = true ↔ o = some u := by
  cases o <;> simp [sqlEq]

theorem sqlEq_none (o : Option Nat) : sqlEq o none = false := by
  cases o <;> rfl

theorem protectedTail_userTable (permission : String) (resource : Resource)
    (roleToPermissions : String → List String) (authClient : AuthClient)
    (tokenString : String) (subjectID : Nat) (userTable : List GoUser) :
    (protectedTail permission resource roleToPermissions authClient
      tokenString subjectID userTable).userTable = userTable := by
  unfold protectedTail
  repeat' split
  all_goals rfl

theorem protectedTail_handler_admitted (permission : String) (resource : Resource)
    (roleToPermissions : String → List String) (authClient : AuthClient)
    (tokenString : String) (subjectID : Nat) (userTable : List GoUser) :
    (protectedTail permission resource roleToPermissions authClient
        tokenString subjectID userTable).handlerInvoked = true →
    (protectedTail permission resource roleToPermissions authClient
        tokenString subjectID userTable).outcome = Outcome.admitted := by
  unfold protectedTail
  repeat' split
  all_goals simp

theorem protected_handler_admitted (permission : String) (resource : Resource)
    (roleToPermissions : String → List String) (authClient : AuthClient)
    (saveUserResult : Except String Unit) (userTable : List GoUser) (authHeader : String) :
    (Protected permission resource roleToPermissions authClient saveUserResult
        userTable authHeader).handlerInvoked = true →
    (Protected permission resource roleToPermissions authClient saveUserResult
        userTable authHeader).outcome = Outcome.admitted := by
  unfold Protected
  repeat' split
  all_goals first
    | exact protectedTail_handler_admitted _ _ _ _ _ _ _
    | simp

theorem protected_userTable_change (permission : String) (resource : Resource)
    (roleToPermissions : String → List String) (authClient : AuthClient)
    (saveUserResult : Except String Unit) (userTable : List GoUser) (authHeader : String) :
    (Protected permission resource roleToPermissions authClient saveUserResult
        userTable authHeader).userTable = userTable ∨
    ∃ u : GoUser,
      (Protected permission resource roleToPermissions authClient saveUserResult
        userTable authHeader).userTable = userTable ++ [u] := by
  unfold Protected
  repeat' split
  all_goals first
    | exact Or.inr ⟨_, protectedTail_userTable _ _ _ _ _ _ _⟩
    | exact Or.inl (protectedTail_userTable _ _ _ _ _ _ _)
    | exact Or.inl rfl

theorem dbLoadUser_append_self (t : List GoUser) (u : GoUser) :
    ∃ v, dbLoadUser (t ++ [u]) u.id = some v := by
  induction t with
  | nil => exact ⟨u, by simp [dbLoadUser]⟩
  | cons a t ih =>
    by_cases h : (a.id == u.id) = true
    · exact ⟨a, by simp [dbLoadUser, List.find?_cons_of_pos, h]⟩
    · obtain ⟨v, hv⟩ := ih
      refine ⟨v, ?_⟩
      simpa [dbLoadUser, List.find?_cons_of_neg, h] using hv

/-! ## Claim theorems -/

/-- Claim C10: the dedicated global-permission check returns the same boolean
as the general permission check applied with the literal action token
"global"; both perform the same case-insensitive match against
`<resource>.global`. -/
theorem haveGlobalPermission_eq_havePermission (resource : String)
    (permissions : List String) :
    haveGlobalPermission resource permissions
      = havePermission resource "global" permissions := rfl

/-- Claim C1: in every request-scoped repository construction, a global
resource gets no ownership filter regardless of caller; a non-global resource
whose caller holds the (case-insensitively matched) `<resource>.global`
permission has the filter waived, so the visible row set equals the
unfiltered row set; otherwise the row set is filtered to exactly the rows
whose owner equals the caller's identity. -/
theorem scoped_repository_ownership_filter (pageSize pageNumber offset : Int)
    (userID : Option Nat) (resourceName : String) (resources : Resources)
    (perms : List String) (table : List Row) :
    (resources.IsGlobal resourceName = true →
      (NewRepository pageSize pageNumber offset userID resourceName resources
        perms).scopedTable table = table) ∧
    (resources.IsGlobal resourceName = false →
      haveGlobalPermission resourceName perms = true →
      (NewRepository pageSize pageNumber offset userID resourceName resources
        perms).scopedTable table = table) ∧
    (resources.IsGlobal resourceName = false →
      haveGlobalPermission resourceName perms = false →
      ∀ u : Nat, userID = some u →
      ∀ r : Row,
        r ∈ (NewRepository pageSize pageNumber offset userID resourceName resources
              perms).scopedTable table
          ↔ r ∈ table ∧ r.userId = some u) := by
  refine ⟨?_, ?_, ?_⟩
  · intro hg
    simp [NewRepository, Repository.scopedTable, hg]
  · intro hg hp
    simp [NewRepository, Repository.scopedTable, hg, hp]
  · intro hg hp u hu r
    subst hu
    simp [NewRepository, Repository.scopedTable, DBScopes.Owned, hg, hp,
      List.mem_filter, sqlEq_some_iff]

/-- Witness for C1: with caller 7 and no global permission, the row owned by
user 7 is in the scoped row set of the `book` repository. -/
theorem scoped_repository_ownership_filter_witness :
    ({ id := 1, userId := some 7, payload := 11, validateOk := true } : Row)
      ∈ (NewRepository 10 1 0 (some 7) "book" demoResources
          ["book.read"]).scopedTable demoTable :=
  ((scoped_repository_ownership_filter 10 1 0 (some 7) "book" demoResources
      ["book.read"] demoTable).2.2 (by decide) (by decide) 7 rfl
    { id := 1, userId := some 7, payload := 11, validateOk := true }).2
    ⟨by decide, rfl⟩

/-- Claim C3: in the pointer-based scope (repo/dbscopes.go) a caller with no
resolved identity on a non-global resource with no global permission sees an
empty row set — `GetAll` returns an empty list with count 0 and `Get`
surfaces `NotFound`, never another caller's row.  In the user-struct variant
of the same function (common/constants.go), however, the ownership filter
dereferences the absent caller record and faults (`none`) on the very same
scenario instead of matching nothing. -/
theorem absent_owner_scoping_behavior :
    ((NewRepository 10 1 0 none "book" demoResources []).scopedTable demoTable
        = [] ∧
     Repository.GetAll (NewRepository 10 1 0 none "book" demoResources [])
        demoResources "book" demoTable
        = .ok { count := 0, page := 1, pageSize := 10, data := [] } ∧
     Repository.Get (NewRepository 10 1 0 none "book" demoResources [])
        demoResources "book" 1 demoTable = .error .notFound) ∧
    CommonDBScopes.Owned
        { pageSize := 10, page := 1, offset := 0, user := none, global := false }
        demoTable = none :=
  ⟨⟨rfl, rfl, rfl⟩, rfl⟩

/-- Claim C4: creating a non-global resource with no caller identity in scope
executes `return nil, err` where `err` is nil, so the call returns neither an
object nor an error (instead of the Unauthorized failure the claim states)
while indeed persisting nothing; with an identity available, the caller is
stamped as the object's owner before persisting. -/
theorem create_without_identity_no_error :
    (Repository.Create (NewRepository 10 1 0 none "book" demoResources [])
        demoResources "book"
        (some { id := 0, userId := none, payload := 5, validateOk := true })
        demoTable
      = ((none, none), demoTable)) ∧
    (Repository.Create (NewRepository 10 1 0 (some 7) "book" demoResources [])
        demoResources "book"
        (some { id := 0, userId := none, payload := 5, validateOk := true })
        demoTable
      = ((some { id := 0, userId := some 7, payload := 5, validateOk := true }, none),
         demoTable ++ [{ id := 0, userId := some 7, payload := 5, validateOk := true }])) :=
  ⟨rfl, rfl⟩

/-- Counterexample to C5: with bounds [10, 500], the requested page size 5 —
positive but below the minimum — is returned unchanged, so the effective page
size does not lie in the closed interval. -/
theorem getPageSize_below_min_unclamped :
    getPageSize "5" 10 500 = 5 ∧
    ¬(10 ≤ getPageSize "5" 10 500 ∧ getPageSize "5" 10 500 ≤ 500) := by
  decide

/-- Claim C5 (amended): values parsed above maxPageSize clamp down to
maxPageSize; non-numeric, missing, and non-positive values (all parsed as ≤ 0)
resolve to minPageSize; but any positive value not exceeding maxPageSize —
including values below minPageSize — is used as requested.  Consequently the
effective page size lies in [1, maxPageSize] under a positive configuration,
not necessarily in [minPageSize, maxPageSize]. -/
theorem getPageSize_characterization (raw : String) (minPageSize maxPageSize : Int)
    (hmin : 0 < minPageSize) (hle : minPageSize ≤ maxPageSize) :
    (maxPageSize < goAtoi raw →
      getPageSize raw minPageSize maxPageSize = maxPageSize) ∧
    (goAtoi raw ≤ 0 →
      getPageSize raw minPageSize maxPageSize = minPageSize) ∧
    (0 < goAtoi raw → goAtoi raw ≤ maxPageSize →
      getPageSize raw minPageSize maxPageSize = goAtoi raw) ∧
    1 ≤ getPageSize raw minPageSize maxPageSize ∧
    getPageSize raw minPageSize maxPageSize ≤ maxPageSize := by
  unfold getPageSize
  refine ⟨fun h => ?_, fun h => ?_, fun h h2 => ?_, ?_, ?_⟩ <;>
    split_ifs <;> omega

/-- Witness for the amended C5. -/
theorem getPageSize_characterization_witness :
    getPageSize "750" 10 500 = 500 ∧
    getPageSize "abc" 10 500 = 10 ∧
    getPageSize "20" 10 500 = 20 ∧
    (1 ≤ getPageSize "750" 10 500 ∧ getPageSize "750" 10 500 ≤ 500) := by
  have h750 := getPageSize_characterization "750" 10 500 (by norm_num) (by norm_num)
  have habc := getPageSize_characterization "abc" 10 500 (by norm_num) (by norm_num)
  have h20 := getPageSize_characterization "20" 10 500 (by norm_num) (by norm_num)
  refine ⟨h750.1 (by decide), habc.2.1 (by decide),
    h20.2.2.1 (by decide) (by decide), h750.2.2.2.1, h750.2.2.2.2⟩

/-- Claim C6: update decodes into a fresh blank object and validates it; a
malformed body or failed validation aborts with nothing persisted; the
existing row is then loaded by id under the repository's scope and a missing
row aborts with NotFound, persisting nothing; otherwise the path id is set on
the decoded object — overriding any id carried in the body — and the object
is persisted as a full-row update of that row. -/
theorem update_path_id_overrides (repository : Repository) (resources : Resources)
    (resourceName : String) (uid : Nat) (table : List Row)
    (hres : (resources.resources.lookup resourceName).isSome = true) :
    (Repository.Update repository resources resourceName uid none table
      = ((none, some .malformedBody), table)) ∧
    (∀ object : Row, object.validateOk = false →
      Repository.Update repository resources resourceName uid (some object) table
        = ((none, some .validationFailed), table)) ∧
    (∀ object : Row, object.validateOk = true →
      findByID (repository.scopedTable table) uid = .error .notFound →
      Repository.Update repository resources resourceName uid (some object) table
        = ((none, some .notFound), table)) ∧
    (∀ object existing : Row, object.validateOk = true →
      findByID (repository.scopedTable table) uid = .ok existing →
      Repository.Update repository resources resourceName uid (some object) table
        = ((some { object with id := uid }, none),
           table.map (fun r => if r.id == uid then { object with id := uid } else r))) := by
  obtain ⟨res, hr⟩ := Option.isSome_iff_exists.mp hres
  refine ⟨?_, ?_, ?_, ?_⟩
  · simp [Repository.Update, Resources.New, hr]
  · intro object hv
    simp [Repository.Update, Resources.New, hr, hv]
  · intro object hv hf
    simp [Repository.Update, Resources.New, hr, hv, hf]
  · intro object existing hv hf
    simp [Repository.Update, Resources.New, hr, hv, hf]

/-- Witness for C6: a body carrying id 99 updated under path id 1 is
persisted with id 1. -/
theorem update_path_id_overrides_witness :
    Repository.Update (NewRepository 10 1 0 (some 7) "book" demoResources
        ["book.global"]) demoResources "book" 1
        (some { id := 99, userId := none, payload := 5, validateOk := true })
        demoTable
      = ((some { id := 1, userId := none, payload := 5, validateOk := true }, none),
         [{ id := 1, userId := none, payload := 5, validateOk := true },
          { id := 2, userId := some 8, payload := 22, validateOk := true }]) := by
  have h := (update_path_id_overrides
      (NewRepository 10 1 0 (some 7) "book" demoResources ["book.global"])
      demoResources "book" 1 demoTable (by decide)).2.2.2
      { id := 99, userId := none, payload := 5, validateOk := true }
      { id := 1, userId := some 7, payload := 11, validateOk := true }
      rfl rfl
  exact h.trans (by decide)

/-- Claim C7: the page number defaults to 1 whenever the raw parameter parses
non-positively (covering non-numeric, missing, and non-positive input) and is
always at least 1; the offset equals `(page - 1) * pageSize` over the
effective values; the request `page=0&page_size=-5` resolves to page 1 and
pageSize minPageSize; and a pagination window whose offset is at or past the
end of the row set yields the empty result, not an error. -/
theorem page_and_offset_resolution (pageRaw sizeRaw : String)
    (minPageSize maxPageSize : Int)
    (hmin : 0 < minPageSize) (hle : minPageSize ≤ maxPageSize) :
    (goAtoi pageRaw ≤ 0 → getPage pageRaw = 1) ∧
    1 ≤ getPage pageRaw ∧
    getOffset pageRaw sizeRaw minPageSize maxPageSize
      = (getPage pageRaw - 1) * getPageSize sizeRaw minPageSize maxPageSize ∧
    getPage "0" = 1 ∧
    getPageSize "-5" minPageSize maxPageSize = minPageSize ∧
    (∀ dbs : DBScopes, ∀ rows : List Row,
      rows.length ≤ dbs.offset.toNat → dbs.Paginate rows = []) := by
  refine ⟨?_, ?_, rfl, by decide, ?_, ?_⟩
  · intro h
    unfold getPage
    split_ifs
    all_goals omega
  · unfold getPage
    split_ifs
    all_goals omega
  · have h5 : goAtoi "-5" = -5 := by decide
    unfold getPageSize
    rw [h5]
    split_ifs <;> omega
  · intro dbs rows h
    have hdrop : rows.drop dbs.offset.toNat = [] := List.drop_eq_nil_of_le h
    unfold DBScopes.Paginate goOffset goLimit
    by_cases ho : dbs.offset < 0
    · have h0 : dbs.offset.toNat = 0 := Int.toNat_of_nonpos (le_of_lt ho)
      have hrows : rows = [] := by
        rw [h0] at h
        exact List.eq_nil_of_length_eq_zero (Nat.le_zero.mp h)
      simp [ho, hrows]
    · simp [ho, hdrop]

/-- Witness for C7. -/
theorem page_and_offset_resolution_witness :
    getPage "0" = 1 ∧ getPageSize "-5" 10 500 = 10 ∧
    getOffset "0" "-5" 10 500 = (getPage "0" - 1) * getPageSize "-5" 10 500 := by
  have h := page_and_offset_resolution "0" "-5" 10 500 (by norm_num) (by norm_num)
  exact ⟨h.2.2.2.1, h.2.2.2.2.1, h.2.2.1⟩

/-- Counterexample to C2: a first-time caller presents a valid token whose
roles grant no `order.write` permission.  The outcome is a rejection
(Forbidden), yet the gate has already inserted the caller's local user record
(the table is no longer empty) and constructed the request-scoped repository
before the permission decision. -/
theorem rejected_request_persists_user_upsert :
    (Protected "write" { name := "order", isGlobal := false } demoRoleTable
        demoClient (Except.ok ()) [] "Bearer tok").outcome
      = .rejected 401 "\x7b\"error\":\"unauthorized, no permission for order.write\"\x7d" ∧
    (Protected "write" { name := "order", isGlobal := false } demoRoleTable
        demoClient (Except.ok ()) [] "Bearer tok").userTable = [{ id := 42 }] ∧
    (Protected "write" { name := "order", isGlobal := false } demoRoleTable
        demoClient (Except.ok ()) [] "Bearer tok").repoConstructed = true :=
  ⟨rfl, rfl, rfl⟩

/-- Claim C2 (amended): on every rejected request the downstream handler —
and with it every CRUD persistence operation of step 8 — is never invoked,
and the only persisted-state change the gate itself may leave behind is the
first-use insert of the caller's own user record, made before the role and
permission steps; the request-scoped repository, however, is constructed
before the permission decision and merely discarded on a Forbidden
rejection. -/
theorem rejected_request_effects (permission : String) (resource : Resource)
    (roleToPermissions : String → List String) (authClient : AuthClient)
    (saveUserResult : Except String Unit) (userTable : List GoUser)
    (authHeader : String)
    (hrej : (Protected permission resource roleToPermissions authClient
        saveUserResult userTable authHeader).outcome ≠ Outcome.admitted) :
    (Protected permission resource roleToPermissions authClient saveUserResult
        userTable authHeader).handlerInvoked = false ∧
    ((Protected permission resource roleToPermissions authClient saveUserResult
        userTable authHeader).userTable = userTable ∨
     ∃ u : GoUser,
       (Protected permission resource roleToPermissions authClient saveUserResult
         userTable authHeader).userTable = userTable ++ [u]) := by
  refine ⟨?_, protected_userTable_change permission resource roleToPermissions
    authClient saveUserResult userTable authHeader⟩
  cases hh : (Protected permission resource roleToPermissions authClient
      saveUserResult userTable authHeader).handlerInvoked with
  | false => rfl
  | true =>
    exact absurd (protected_handler_admitted permission resource roleToPermissions
      authClient saveUserResult userTable authHeader hh) hrej

/-- Witness for the amended C2. -/
theorem rejected_request_effects_witness :
    (Protected "read" { name := "order", isGlobal := false } demoRoleTable
        demoClient (Except.ok ()) [] "").handlerInvoked = false ∧
    ((Protected "read" { name := "order", isGlobal := false } demoRoleTable
        demoClient (Except.ok ()) [] "").userTable = [] ∨
     ∃ u : GoUser,
       (Protected "read" { name := "order", isGlobal := false } demoRoleTable
         demoClient (Except.ok ()) [] "").userTable = [] ++ [u]) :=
  rejected_request_effects "read" { name := "order", isGlobal := false }
    demoRoleTable demoClient (Except.ok ()) [] "" (by decide)

/-- Claim C8: a request whose Authorization header is missing or no longer
than the scheme token "bearer" (fewer than 7 characters) is rejected with
HTTP 401 and the exact body `\x7b"error":"unauthorized, missing bearer
authorization header"\x7d`, with no state change and no handler invocation;
a header of sufficient length whose first six characters do not
case-insensitively spell "bearer" is likewise rejected with 401. -/
theorem gate_missing_or_malformed_credential (permission : String)
    (resource : Resource) (roleToPermissions : String → List String)
    (authClient : AuthClient) (saveUserResult : Except String Unit)
    (userTable : List GoUser) (authHeader : String) :
    (strLength authHeader < 7 →
      Protected permission resource roleToPermissions authClient saveUserResult
          userTable authHeader
        = { outcome := .rejected 401
              "\x7b\"error\":\"unauthorized, missing bearer authorization header\"\x7d",
            userTable := userTable, repoConstructed := false,
            handlerInvoked := false }) ∧
    (7 ≤ strLength authHeader → strToLower (strTake authHeader 6) ≠ "bearer" →
      (Protected permission resource roleToPermissions authClient saveUserResult
          userTable authHeader).outcome
        = .rejected 401
            "\x7b\"error\":\"unauthorized, invalid bearer authorization header\"\x7d") := by
  constructor
  · intro h
    unfold Protected
    rw [if_pos h]
    rfl
  · intro h1 h2
    unfold Protected
    rw [if_neg (by omega), if_pos (bne_iff_ne.mpr h2)]
    rfl

/-- Witness for C8. -/
theorem gate_missing_or_malformed_credential_witness :
    (Protected "read" { name := "order", isGlobal := false } demoRoleTable
        demoClient (Except.ok ()) [] ""
      = { outcome := .rejected 401
            "\x7b\"error\":\"unauthorized, missing bearer authorization header\"\x7d",
          userTable := [], repoConstructed := false, handlerInvoked := false }) ∧
    (Protected "read" { name := "order", isGlobal := false } demoRoleTable
        demoClient (Except.ok ()) [] "Basic abcdef").outcome
      = .rejected 401
          "\x7b\"error\":\"unauthorized, invalid bearer authorization header\"\x7d" :=
  ⟨(gate_missing_or_malformed_credential "read" { name := "order", isGlobal := false }
      demoRoleTable demoClient (Except.ok ()) [] "").1 (by decide),
   (gate_missing_or_malformed_credential "read" { name := "order", isGlobal := false }
      demoRoleTable demoClient (Except.ok ()) [] "Basic abcdef").2
      (by decide) (by decide)⟩

/-- Counterexample to C9: when token introspection fails, the provider's
root-cause message is serialized verbatim into the 401 response body. -/
theorem provider_detail_exposed_in_response :
    (Protected "read" { name := "order", isGlobal := false } demoRoleTable
        failingClient (Except.ok ()) [] "Bearer tok").outcome
      = .rejected 401
          "\x7b\"error\":\"introspection call failed: connection refused\"\x7d" :=
  rfl

/-- Claim C9 (amended): every provider-side failure — invalid credential,
identity resolution failure, role resolution failure — is resolved inside the
gate with the uniform HTTP status 401, but the provider's error message is
serialized verbatim into the JSON response body (as well as logged), not
withheld from the caller. -/
theorem auth_failures_uniform_status (permission : String) (resource : Resource)
    (roleToPermissions : String → List String) (authClient : AuthClient)
    (saveUserResult : Except String Unit) (userTable : List GoUser)
    (authHeader msg : String)
    (hlen : ¬strLength authHeader < 7)
    (hscheme : strToLower (strTake authHeader 6) = "bearer") :
    (authClient.retrospectToken (strTrim (strDrop authHeader 7)) = .error msg →
      (Protected permission resource roleToPermissions authClient saveUserResult
        userTable authHeader).outcome = .rejected 401 (errorBody msg)) ∧
    (authClient.retrospectToken (strTrim (strDrop authHeader 7)) = .ok () →
     authClient.getUserFromToken (strTrim (strDrop authHeader 7)) = .error msg →
      (Protected permission resource roleToPermissions authClient saveUserResult
        userTable authHeader).outcome = .rejected 401 (errorBody msg)) ∧
    (∀ u : GoUser,
      authClient.retrospectToken (strTrim (strDrop authHeader 7)) = .ok () →
      authClient.getUserFromToken (strTrim (strDrop authHeader 7)) = .ok u →
      authClient.getRolesFromToken (strTrim (strDrop authHeader 7)) = .error msg →
      saveUserResult = .ok () →
      (Protected permission resource roleToPermissions authClient saveUserResult
        userTable authHeader).outcome = .rejected 401 (errorBody msg)) := by
  have hcond : ¬(strToLower (strTake authHeader 6) != "bearer") = true := by
    simp [hscheme]
  refine ⟨?_, ?_, ?_⟩
  · intro hr
    unfold Protected
    rw [if_neg hlen, if_neg hcond]
    simp [hr]
  · intro hr hu
    unfold Protected
    rw [if_neg hlen, if_neg hcond]
    simp [hr, hu]
  · intro u hr hu hroles hsave
    unfold Protected
    rw [if_neg hlen, if_neg hcond]
    simp only [hr, hu]
    cases hload : dbLoadUser userTable u.id with
    | some v =>
      simp only [hload]
      unfold protectedTail
      simp [hload, hroles]
    | none =>
      simp only [hload, hsave]
      obtain ⟨v, hv⟩ := dbLoadUser_append_self userTable u
      unfold protectedTail
      simp [hv, hroles]

/-- Witness for the amended C9. -/
theorem auth_failures_uniform_status_witness :
    (Protected "read" { name := "order", isGlobal := false } demoRoleTable
        failingClient (Except.ok ()) [] "Bearer tok").outcome
      = .rejected 401 (errorBody "introspection call failed: connection refused") :=
  (auth_failures_uniform_status "read" { name := "order", isGlobal := false }
      demoRoleTable failingClient (Except.ok ()) []
      "Bearer tok" "introspection call failed: connection refused"
      (by decide) (by decide)).1 rfl

end Respite
